import Mathlib

/-!
Shallow embedding of the parameter-initializer module
(`python/paddle/fluid/initializer.py`) and of the elementwise-operator
gradient-check scaffolding of this repository, together with theorems
settling the specification claims about them.

Numeric convention: the Python code computes with IEEE floats; here the
arithmetic is embedded exactly over the rationals, so every quantity the
source derives (ceil, float modulo, absolute value, division) is an exact
rational.  All discrepancies established below are large, exact rational
gaps, far beyond any float rounding.
-/

namespace PaddleSpec

/-- Tensor element dtypes (`VarDesc.VarType` members used by the module). -/
inductive VarType
  | fp16 | bf16 | fp32 | fp64 | int32 | int64
  deriving DecidableEq, Repr

/-- The distinct exceptions the two `forward` methods can raise:
`badRank` is the ValueError "the length of shape must be 4.",
`badSpatial` is the ValueError "shape[2] must be equal to shape[3].",
`unsupportedDtype` is the unsupported-dtype TypeError or ValueError, and
`sizeLimit` is the ValueError "The size of input is too big.". -/
inductive InitError
  | badRank | badSpatial | unsupportedDtype | sizeLimit | invalidArgument
  deriving DecidableEq, Repr

/-- The `assign_value` operation the initializers emit: its `shape`,
`dtype` attributes and the flat `values` list. -/
structure AssignValueOp where
  shape : List Nat
  dtype : VarType
  values : List ℚ
  deriving DecidableEq, Repr

/-! ## BilinearInitializer.forward -/

/-- The factor `f = np.ceil(size / 2.0)`: the integer ceiling of `size / 2`. -/
def bilinearFactor (size : Nat) : Nat := (size + 1) / 2

/-- The center `c = (2 * f - 1 - f % 2) / (2.0 * f)` with `f = bilinearFactor size`. -/
def bilinearCenter (size : Nat) : ℚ :=
  let f := bilinearFactor size
  ((2 * f : ℚ) - 1 - ((f % 2 : Nat) : ℚ)) / (2 * (f : ℚ))

/-- Python float modulo `a % n` on nonnegative reals: `a - n * floor (a / n)`. -/
def floatMod (a n : ℚ) : ℚ := a - n * ⌊a / n⌋

/-- One entry of the bilinear weight buffer, exactly as the loop body
computes it: `x = i % size` (integer), `y = (i / size) % size` where `/`
is Python-3 true division (so `y` is in general fractional), and
`weight[i] = (1 - abs(x / f - c)) * (1 - abs(y / f - c))`. -/
def bilinearWeight (size i : Nat) : ℚ :=
  let f : ℚ := (bilinearFactor size : Nat)
  let c := bilinearCenter size
  let x : ℚ := ((i % size : Nat) : ℚ)
  let y : ℚ := floatMod ((i : ℚ) / (size : ℚ)) ((size : ℚ))
  (1 - |x / f - c|) * (1 - |y / f - c|)

/-- The flat weight buffer: `weight[i]` for `i in range(np.prod(shape))`,
with `size = shape[3]`. -/
def bilinearValues (shape : List Nat) : List ℚ :=
  (List.range shape.prod).map (bilinearWeight (shape.getD 3 0))

/-- Dtype promotion in `BilinearInitializer.forward`: FP16, BF16 and FP64
compute via an FP32 temporary; every other dtype is used directly. -/
def promoteBilinear (dt : VarType) : VarType :=
  if dt = .fp16 ∨ dt = .bf16 ∨ dt = .fp64 then .fp32 else dt

/-- The method `BilinearInitializer.forward`, as the value-level computation it
performs on the target variable shape and dtype: the shape checks, the
weight buffer, the dtype check, the size-limit check, and the emitted
`assign_value` operation, in exactly the order of the source. -/
def bilinearForward (shape : List Nat) (dtype : VarType) :
    Except InitError AssignValueOp :=
  if shape.length ≠ 4 then .error .badRank
  else if shape.getD 2 0 ≠ shape.getD 3 0 then .error .badSpatial
  else
    let weight := bilinearValues shape
    let out_dtype := promoteBilinear dtype
    if out_dtype ≠ .fp32 then .error .unsupportedDtype
    else if shape.prod > 1024 * 1024 then .error .sizeLimit
    else .ok ⟨shape, out_dtype, weight⟩

/-- The weight formula as the specification states it: identical to
`bilinearWeight` except that the row index is the integer
`y = floor (i / size) % size`. -/
def specBilinearWeight (size i : Nat) : ℚ :=
  let f : ℚ := (bilinearFactor size : Nat)
  let c := bilinearCenter size
  let x : ℚ := ((i % size : Nat) : ℚ)
  let y : ℚ := ((i / size % size : Nat) : ℚ)
  (1 - |x / f - c|) * (1 - |y / f - c|)

/-! ## NumpyArrayInitializer.forward -/

/-- A caller-supplied numpy array: its shape and flat (row-major) data. -/
structure NpArray where
  shape : List Nat
  data : List ℚ
  deriving DecidableEq, Repr

/-- Python `int(v)`: truncation toward zero. -/
def pyInt (q : ℚ) : ℤ := if 0 ≤ q then ⌊q⌋ else ⌈q⌉

/-- Dtype promotion in `NumpyArrayInitializer.forward`: FP16 and BF16
compute via an FP32 temporary; every other dtype is used directly. -/
def promoteNumpy (dt : VarType) : VarType :=
  if dt = .fp16 ∨ dt = .bf16 then .fp32 else dt

/-- The `fp32_values` / `int32_values` conversion branch of
`NumpyArrayInitializer.forward`: `[float(v) ...]` for FP32,
`[int(v) ...]` for INT32, and the unsupported-dtype ValueError
otherwise. -/
def numpyValues (out_dtype : VarType) (data : List ℚ) :
    Except InitError (List ℚ) :=
  if out_dtype = .fp32 then .ok data
  else if out_dtype = .int32 then .ok (data.map (fun v => ((pyInt v : ℤ) : ℚ)))
  else .error .unsupportedDtype

/-- The method `NumpyArrayInitializer.forward`, as the value-level computation it
performs: dtype promotion, the values conversion (whose failure is the
unsupported-dtype error), the size-limit check on `self._value.size`,
and the emitted `assign_value` operation whose `shape` attribute is
`list(self._value.shape)`.  The target variable shape `varShape` is
accepted but never consulted, exactly as in the source. -/
def numpyForward (value : NpArray) (varShape : List Nat) (varDtype : VarType) :
    Except InitError AssignValueOp :=
  let out_dtype := promoteNumpy varDtype
  match numpyValues out_dtype value.data with
  | .error e => .error e
  | .ok values =>
    if value.data.length > 1024 * 1024 * 1024 then .error .sizeLimit
    else .ok ⟨value.shape, out_dtype, values⟩

/-! ## set_global_initializer -/

/-- A Python value passed as an initializer argument: an `Initializer`
instance (identified by a tag), `None`, or a value of any other type. -/
inductive InitArg
  | inst (tag : Nat)
  | noneV
  | invalid (tag : Nat)
  deriving DecidableEq, Repr

/-- The call `check_type(arg, name, (Initializer, type(None)), ...)`: accepts
exactly `Initializer` instances and `None`. -/
def checkType : InitArg → Bool
  | .inst _ => true
  | .noneV => true
  | .invalid _ => false

/-- The value an accepted argument stores into the registry slot. -/
def argToOption : InitArg → Option Nat
  | .inst t => some t
  | _ => none

/-- The process-wide registry: `_global_weight_initializer_` and
`_global_bias_initializer_`. -/
structure GlobalRegistry where
  weight : Option Nat
  bias : Option Nat
  deriving DecidableEq, Repr

/-- The function `set_global_initializer(weight_init, bias_init)` as a state
transformer: type-check `weight_init`, assign the weight global,
type-check `bias_init`, assign the bias global — in exactly the order of
the source.  Returns the raised TypeError (if any) together with the
registry state left behind. -/
def set_global_initializer (weight_init bias_init : InitArg)
    (s : GlobalRegistry) : Option InitError × GlobalRegistry :=
  if ¬ checkType weight_init then (some .invalidArgument, s)
  else
    let s1 : GlobalRegistry := { s with weight := argToOption weight_init }
    if ¬ checkType bias_init then (some .invalidArgument, s1)
    else (none, { s1 with bias := argToOption bias_init })

/-! ## calculate_gain -/

/-- The `recommended_gain` dictionary of `calculate_gain`, as an
association list, with `param` already resolved. -/
noncomputable def recommended_gain (param : ℝ) : List (String × ℝ) :=
  [("sigmoid", 1), ("linear", 1), ("conv1d", 1), ("conv2d", 1),
   ("conv3d", 1), ("conv1d_transpose", 1), ("conv2d_transpose", 1),
   ("conv3d_transpose", 1), ("tanh", 5 / 3), ("relu", Real.sqrt 2),
   ("leaky_relu", Real.sqrt (2 / (1 + param ^ 2))), ("selu", 3 / 4)]

/-- The keys of `recommended_gain`. -/
def gainNames : List String :=
  ["sigmoid", "linear", "conv1d", "conv2d", "conv3d", "conv1d_transpose",
   "conv2d_transpose", "conv3d_transpose", "tanh", "relu", "leaky_relu",
   "selu"]

/-- The function `calculate_gain(nonlinearity, param)`: `param` defaults to `0.01`,
then the name is looked up in the dictionary, and an unknown name raises
the unsupported-nonlinearity ValueError. -/
noncomputable def calculate_gain (nonlinearity : String) (param : Option ℝ) :
    Except String ℝ :=
  match (recommended_gain (param.getD (1 / 100))).lookup nonlinearity with
  | some g => .ok g
  | none => .error "nonlinearity function is not supported now."

/-! ## Numeric gradient checks for elementwise add

The checker itself (`gradient_checker.double_grad_check` /
`triple_grad_check`) and the autodiff engine live in this repository but
outside the sampled sources; they are modelled from the specification
below.  Tensors are flattened to lists of exact rationals; an operator
maps the concatenated flat inputs to a flat output. -/

/-- Modelled from the spec: perturbing one input element by `d`
(`gradient_checker` is repository code not present under `src/`).
Element `j` of the flat input vector is moved by `d`. -/
def perturb (z : List ℚ) (j : Nat) (d : ℚ) : List ℚ :=
  z.set j (z.getD j 0 + d)

/-- Modelled from the spec: the central-difference estimate
`(f(x + eps) - f(x - eps)) / (2 eps)` of the derivative of output
element `k` with respect to input element `j`. -/
def centralDiff (F : List ℚ → List ℚ) (z : List ℚ) (eps : ℚ)
    (j k : Nat) : ℚ :=
  ((F (perturb z j eps)).getD k 0 - (F (perturb z j (-eps))).getD k 0)
    / (2 * eps)

/-- Modelled from the spec: the Order-1 numeric check applied to an
operator `F` with analytic Jacobian `J` — every central-difference
estimate agrees with the analytic entry within tolerance `tol`. -/
def gradCheckPasses (F : List ℚ → List ℚ) (J : Nat → Nat → ℚ)
    (z : List ℚ) (eps tol : ℚ) (nIn nOut : Nat) : Prop :=
  ∀ j < nIn, ∀ k < nOut, |centralDiff F z eps j k - J j k| ≤ tol

/-- The element count of the test shape `[2, 3, 4, 5]`. -/
def elemCount : Nat := 2 * 3 * 4 * 5

/-- The elementwise add operator on flattened inputs: the first `n`
entries of `z` are `x`, the next `n` are `y`, and `out_k = x_k + y_k`. -/
def addForward (n : Nat) (z : List ℚ) : List ℚ :=
  (List.range n).map (fun k => z.getD k 0 + z.getD (n + k) 0)

/-- Modelled from the spec: the analytic gradient of elementwise add with
respect to `(x, y)` under an upstream seed `s`, as the host autodiff
collaborator reports it: `(s, s)`, concatenated flat. -/
def addGradient (n : Nat) (s : List ℚ) : List ℚ := s ++ s

/-- Modelled from the spec: the Order-2 synthetic operator for add — the
analytic gradient of `addForward` under a seed of ones.  It is constant
in `z` because the first derivative of add does not depend on the
inputs. -/
def addDoubleOp (n : Nat) (_z : List ℚ) : List ℚ :=
  addGradient n (List.replicate n 1)

/-- Modelled from the spec: the Order-3 synthetic operator for add — the
analytic gradient of `addDoubleOp` under a second seed of ones.  The
collaborator differentiates a constant operator, so it reports zeros. -/
def addTripleOp (n : Nat) (_z : List ℚ) : List ℚ :=
  List.replicate (2 * n) 0

/-! ## Helper lemmas -/

lemma bilinearFactor_pos {size : Nat} (h : 0 < size) :
    0 < bilinearFactor size := by
  unfold bilinearFactor; omega

lemma size_le_two_bilinearFactor (size : Nat) :
    size ≤ 2 * bilinearFactor size := by
  unfold bilinearFactor; omega

lemma bilinearCenter_nonneg {size : Nat} (h : 0 < size) :
    0 ≤ bilinearCenter size := by
  unfold bilinearCenter
  have hf : 1 ≤ bilinearFactor size := bilinearFactor_pos h
  have hfq : (1 : ℚ) ≤ (bilinearFactor size : ℚ) := by exact_mod_cast hf
  have hm : bilinearFactor size % 2 ≤ 1 := by omega
  have hmq : ((bilinearFactor size % 2 : Nat) : ℚ) ≤ 1 := by exact_mod_cast hm
  apply div_nonneg _ (by linarith)
  linarith

lemma bilinearCenter_le_one {size : Nat} (h : 0 < size) :
    bilinearCenter size ≤ 1 := by
  unfold bilinearCenter
  have hf : 1 ≤ bilinearFactor size := bilinearFactor_pos h
  have hfq : (1 : ℚ) ≤ (bilinearFactor size : ℚ) := by exact_mod_cast hf
  have hmq : (0 : ℚ) ≤ ((bilinearFactor size % 2 : Nat) : ℚ) := by
    exact_mod_cast Nat.zero_le _
  rw [div_le_one (by linarith)]
  linarith

lemma floatMod_nonneg (a : ℚ) {n : ℚ} (hn : 0 < n) : 0 ≤ floatMod a n := by
  unfold floatMod
  have h : ((⌊a / n⌋ : ℚ)) ≤ a / n := Int.floor_le (a / n)
  have h2 : n * ((⌊a / n⌋ : ℚ)) ≤ n * (a / n) :=
    mul_le_mul_of_nonneg_left h hn.le
  have h3 : n * (a / n) = a := by field_simp
  linarith

lemma floatMod_lt (a : ℚ) {n : ℚ} (hn : 0 < n) : floatMod a n < n := by
  unfold floatMod
  have h : a / n < (⌊a / n⌋ : ℚ) + 1 := Int.lt_floor_add_one (a / n)
  have h2 : n * (a / n) < n * ((⌊a / n⌋ : ℚ) + 1) :=
    mul_lt_mul_of_pos_left h hn
  have h3 : n * (a / n) = a := by field_simp
  have h4 : n * ((⌊a / n⌋ : ℚ) + 1) = n * ((⌊a / n⌋ : ℚ)) + n := by ring
  linarith

lemma bilinear_term_abs_le {v fq c : ℚ} (hfq : 0 < fq) (hv0 : 0 ≤ v)
    (hv : v ≤ 2 * fq) (hc0 : 0 ≤ c) (hc1 : c ≤ 1) :
    |(1 - |v / fq - c| : ℚ)| ≤ 1 := by
  have h1 : 0 ≤ v / fq := div_nonneg hv0 hfq.le
  have h2 : v / fq ≤ 2 := by rw [div_le_iff hfq]; linarith
  have h3 : |v / fq - c| ≤ 2 := by rw [abs_le]; constructor <;> linarith
  have h4 : 0 ≤ |v / fq - c| := abs_nonneg _
  rw [abs_le]; constructor <;> linarith

lemma bilinearWeight_abs_le {size : Nat} (i : Nat) (h : 0 < size) :
    |bilinearWeight size i| ≤ 1 := by
  unfold bilinearWeight
  have hf : 0 < bilinearFactor size := bilinearFactor_pos h
  have hfq : (0 : ℚ) < (bilinearFactor size : ℚ) := by exact_mod_cast hf
  have hsq : (0 : ℚ) < (size : ℚ) := by exact_mod_cast h
  have hc0 := bilinearCenter_nonneg h
  have hc1 := bilinearCenter_le_one h
  have hx0 : (0 : ℚ) ≤ ((i % size : Nat) : ℚ) := by exact_mod_cast Nat.zero_le _
  have hx2 : ((i % size : Nat) : ℚ) ≤ 2 * (bilinearFactor size : ℚ) := by
    have h1 : i % size < size := Nat.mod_lt i h
    have h2 : i % size ≤ 2 * bilinearFactor size := by
      have := size_le_two_bilinearFactor size
      omega
    exact_mod_cast h2
  have hy0 : 0 ≤ floatMod ((i : ℚ) / (size : ℚ)) (size : ℚ) :=
    floatMod_nonneg _ hsq
  have hy2 : floatMod ((i : ℚ) / (size : ℚ)) (size : ℚ) ≤
      2 * (bilinearFactor size : ℚ) := by
    have h1 := floatMod_lt ((i : ℚ) / (size : ℚ)) hsq
    have h2 : (size : ℚ) ≤ 2 * (bilinearFactor size : ℚ) := by
      exact_mod_cast size_le_two_bilinearFactor size
    linarith
  rw [abs_mul]
  exact mul_le_one (bilinear_term_abs_le hfq hx0 hx2 hc0 hc1) (abs_nonneg _)
    (bilinear_term_abs_le hfq hy0 hy2 hc0 hc1)

lemma bilinearWeight_size_one (i : Nat) : bilinearWeight 1 i = 1 := by
  unfold bilinearWeight floatMod
  norm_num [bilinearCenter, bilinearFactor, Nat.mod_one, Int.floor_natCast]

lemma length_four_exists {l : List Nat} (h : l.length = 4) :
    ∃ a b c d, l = [a, b, c, d] := by
  match l, h with
  | [a, b, c, d], _ => exact ⟨a, b, c, d, rfl⟩

lemma bilinearForward_ok {shape : List Nat} {dt : VarType}
    {op : AssignValueOp} (h : bilinearForward shape dt = .ok op) :
    shape.length = 4 ∧ op.values = bilinearValues shape := by
  simp only [bilinearForward] at h
  by_cases h1 : shape.length ≠ 4
  · rw [if_pos h1] at h; cases h
  rw [if_neg h1] at h
  by_cases h2 : shape.getD 2 0 ≠ shape.getD 3 0
  · rw [if_pos h2] at h; cases h
  rw [if_neg h2] at h
  by_cases h3 : promoteBilinear dt ≠ .fp32
  · rw [if_pos h3] at h; cases h
  rw [if_neg h3] at h
  by_cases h4 : shape.prod > 1024 * 1024
  · rw [if_pos h4] at h; cases h
  rw [if_neg h4] at h
  cases h
  exact ⟨by omega, rfl⟩

lemma bilinearValues_2x2 : bilinearValues [1, 1, 2, 2] = [1, 0, 0, 0] := by
  norm_num [bilinearValues, List.range_succ, bilinearWeight, bilinearCenter,
    bilinearFactor, floatMod, abs_of_nonneg]

lemma bilinearForward_2x2 :
    bilinearForward [1, 1, 2, 2] .fp32 =
      .ok ⟨[1, 1, 2, 2], .fp32, [1, 0, 0, 0]⟩ := by
  rw [show ((⟨[1, 1, 2, 2], .fp32, [1, 0, 0, 0]⟩ : AssignValueOp)) =
      ⟨[1, 1, 2, 2], .fp32, bilinearValues [1, 1, 2, 2]⟩ by
    rw [bilinearValues_2x2]]
  rfl

lemma bilinearValues_3x3 :
    bilinearValues [1, 1, 3, 3] =
      [1/16, 5/16, 7/16, 3/16, 11/16, 11/16, 3/16, 7/16, 5/16] := by
  norm_num [bilinearValues, List.range_succ, bilinearWeight, bilinearCenter,
    bilinearFactor, floatMod, abs_of_nonneg]

lemma bilinearValues_getD (shape : List Nat) (i : Nat) (h : i < shape.prod) :
    (bilinearValues shape).getD i 0 = bilinearWeight (shape.getD 3 0) i := by
  unfold bilinearValues
  rw [List.getD_eq_getElem?_getD, List.getElem?_map, List.getElem?_range h]
  rfl

lemma numpyValues_error_iff (dt : VarType) (data : List ℚ) (e : InitError) :
    numpyValues dt data = .error e ↔
      (e = .unsupportedDtype ∧ dt ≠ .fp32 ∧ dt ≠ .int32) := by
  unfold numpyValues
  by_cases h1 : dt = .fp32
  · rw [if_pos h1]
    simp [h1]
  · rw [if_neg h1]
    by_cases h2 : dt = .int32
    · rw [if_pos h2]
      simp [h2]
    · rw [if_neg h2]
      simp [h1, h2, eq_comm]

/-! ## Claim theorems -/

/-- C1 (code bug): for the accepted input `[1, 1, 3, 3]` (FP32) the
weight buffer the code produces disagrees with the claimed formula
`weight[i] = (1 - |x/f - c|) (1 - |y/f - c|)`, `y = floor(i/size) mod
size`, already at linear index 1: the loop body divides `i / size` with
Python-3 true division, so the code yields `5/16` where the claimed
(floored) formula yields `3/16`. -/
theorem claimC1_code_bug_eval :
    bilinearForward [1, 1, 3, 3] .fp32 = .ok ⟨[1, 1, 3, 3], .fp32,
      [1/16, 5/16, 7/16, 3/16, 11/16, 11/16, 3/16, 7/16, 5/16]⟩ ∧
    bilinearWeight 3 1 = 5 / 16 ∧
    specBilinearWeight 3 1 = 3 / 16 ∧
    bilinearWeight 3 1 ≠ specBilinearWeight 3 1 := by
  refine ⟨?_, ?_, ?_, ?_⟩
  · rw [show ((⟨[1, 1, 3, 3], .fp32,
        [1/16, 5/16, 7/16, 3/16, 11/16, 11/16, 3/16, 7/16, 5/16]⟩ :
          AssignValueOp)) =
        ⟨[1, 1, 3, 3], .fp32, bilinearValues [1, 1, 3, 3]⟩ by
      rw [bilinearValues_3x3]]
    rfl
  · norm_num [bilinearWeight, bilinearCenter, bilinearFactor, floatMod,
      abs_of_nonneg]
  · norm_num [specBilinearWeight, bilinearCenter, bilinearFactor,
      abs_of_nonneg]
  · norm_num [bilinearWeight, specBilinearWeight, bilinearCenter,
      bilinearFactor, floatMod, abs_of_nonneg]

/-- C2 (counterexample): for shape `[1, 1, 2, 2]` the code computes
`c = (2*1 - 1 - 1%2) / 2 = 0`, not `0.5`, and the produced buffer is
`[1, 0, 0, 0]`, not `[0.25, 0.25, 0.25, 0.25]`. -/
theorem claimC2_counterexample :
    bilinearCenter 2 = 0 ∧ bilinearCenter 2 ≠ 1 / 2 ∧
    bilinearForward [1, 1, 2, 2] .fp32 =
      .ok ⟨[1, 1, 2, 2], .fp32, [1, 0, 0, 0]⟩ ∧
    ([1, 0, 0, 0] : List ℚ) ≠ [1/4, 1/4, 1/4, 1/4] := by
  refine ⟨?_, ?_, bilinearForward_2x2, ?_⟩
  · norm_num [bilinearCenter, bilinearFactor]
  · norm_num [bilinearCenter, bilinearFactor]
  · simp

/-- C2 (amended): for the input shape `[1, 1, 2, 2]`,
`BilinearInitializer.forward` computes `size = 2`, `f = 1`, `c = 0`, and
produces the row-major weight buffer `[1, 0, 0, 0]`. -/
theorem claimC2_amended :
    bilinearFactor 2 = 1 ∧ bilinearCenter 2 = 0 ∧
    bilinearForward [1, 1, 2, 2] .fp32 =
      .ok ⟨[1, 1, 2, 2], .fp32, [1, 0, 0, 0]⟩ := by
  exact ⟨rfl, by norm_num [bilinearCenter, bilinearFactor],
    bilinearForward_2x2⟩

/-- C3 (counterexample): the buffer for `[1, 1, 4, 4]` holds `-1/32` at
linear index 15, outside `[0, 1]`; and for odd size 3 the center element
(linear index 4 of `[1, 1, 3, 3]`) is `11/16`, not `1.0`. -/
theorem claimC3_counterexample :
    (bilinearValues [1, 1, 4, 4]).getD 15 0 = -1 / 32 ∧
    ¬ (0 ≤ (bilinearValues [1, 1, 4, 4]).getD 15 0) ∧
    (bilinearValues [1, 1, 3, 3]).getD 4 0 = 11 / 16 ∧
    (bilinearValues [1, 1, 3, 3]).getD 4 0 ≠ 1 := by
  have h4 : (bilinearValues [1, 1, 4, 4]).getD 15 0 = bilinearWeight 4 15 :=
    bilinearValues_getD [1, 1, 4, 4] 15 (by norm_num)
  have h3 : (bilinearValues [1, 1, 3, 3]).getD 4 0 = bilinearWeight 3 4 :=
    bilinearValues_getD [1, 1, 3, 3] 4 (by norm_num)
  have hw4 : bilinearWeight 4 15 = -1 / 32 := by
    norm_num [bilinearWeight, bilinearCenter, bilinearFactor, floatMod,
      abs_of_nonneg]
  have hw3 : bilinearWeight 3 4 = 11 / 16 := by
    norm_num [bilinearWeight, bilinearCenter, bilinearFactor, floatMod,
      abs_of_nonneg]
  rw [h4, h3, hw4, hw3]
  norm_num

/-- C3 (amended): every element of the weight buffer of an accepted
input lies in `[-1, 1]`, and the only case in which the odd-size center
property survives is the degenerate spatial size 1, where every element
equals `1.0`. -/
theorem claimC3_amended (shape : List Nat) (dt : VarType)
    (op : AssignValueOp) (h : bilinearForward shape dt = .ok op) :
    (∀ q ∈ op.values, -1 ≤ q ∧ q ≤ 1) ∧
    (shape.getD 3 0 = 1 → ∀ q ∈ op.values, q = 1) := by
  obtain ⟨hlen, hvals⟩ := bilinearForward_ok h
  constructor
  · intro q hq
    rw [hvals] at hq
    unfold bilinearValues at hq
    rcases List.mem_map.mp hq with ⟨i, hi, rfl⟩
    have hiprod : i < shape.prod := List.mem_range.mp hi
    have hsize : 0 < shape.getD 3 0 := by
      obtain ⟨a, b, c, d, rfl⟩ := length_four_exists hlen
      simp only [List.getD_cons_succ, List.getD_cons_zero]
      rcases Nat.eq_zero_or_pos d with rfl | hd
      · simp at hiprod
      · exact hd
    exact abs_le.mp (bilinearWeight_abs_le i hsize)
  · intro hone q hq
    rw [hvals] at hq
    unfold bilinearValues at hq
    rcases List.mem_map.mp hq with ⟨i, hi, rfl⟩
    rw [hone]
    exact bilinearWeight_size_one i

/-- Witness for `claimC3_amended` at the concrete accepted input
`[1, 1, 2, 2]` (FP32), whose buffer holds the element `1`. -/
theorem claimC3_amended_witness : -1 ≤ (1 : ℚ) ∧ (1 : ℚ) ≤ 1 :=
  (claimC3_amended [1, 1, 2, 2] .fp32 ⟨[1, 1, 2, 2], .fp32, [1, 0, 0, 0]⟩
    bilinearForward_2x2).1 1 (by simp)

/-- C4: the `assign_value` operation emitted by an accepted
`NumpyArrayInitializer.forward` call carries the source array shape, and
the whole result is independent of the target variable shape. -/
theorem claimC4_numpy_shape (value : NpArray) (varShape : List Nat)
    (dt : VarType) (op : AssignValueOp)
    (h : numpyForward value varShape dt = .ok op) :
    op.shape = value.shape ∧
      ∀ varShape2, numpyForward value varShape2 dt =
        numpyForward value varShape dt := by
  refine ⟨?_, fun _ => rfl⟩
  have hchar : numpyForward value varShape dt =
      match numpyValues (promoteNumpy dt) value.data with
      | .error e => .error e
      | .ok vals =>
          if value.data.length > 1024 * 1024 * 1024 then
            Except.error .sizeLimit
          else .ok ⟨value.shape, promoteNumpy dt, vals⟩ := rfl
  rw [hchar] at h
  cases hv : numpyValues (promoteNumpy dt) value.data with
  | error e => rw [hv] at h; cases h
  | ok vals =>
    rw [hv] at h
    have h2 : (if value.data.length > 1024 * 1024 * 1024 then
          Except.error InitError.sizeLimit
        else Except.ok (⟨value.shape, promoteNumpy dt, vals⟩ :
          AssignValueOp)) = Except.ok op := h
    by_cases hs : value.data.length > 1024 * 1024 * 1024
    · rw [if_pos hs] at h2; cases h2
    · rw [if_neg hs] at h2
      cases h2
      rfl

/-- Witness for `claimC4_numpy_shape`: the source array `[1, 2]` of
shape `[2]` initializing an FP32 variable of shape `[5, 7]`. -/
theorem claimC4_witness :
    ({ shape := [2], dtype := .fp32, values := [1, 2] } :
      AssignValueOp).shape = [2] :=
  (claimC4_numpy_shape ⟨[2], [1, 2]⟩ [5, 7] .fp32
    ⟨[2], .fp32, [1, 2]⟩ rfl).1

/-- C5: `NumpyArrayInitializer.forward` raises the unsupported-dtype
error exactly when the promoted dtype is neither FP32 nor INT32, where
promotion maps FP16 and BF16 to FP32 and is the identity otherwise. -/
theorem claimC5_numpy_dtype_error_iff (value : NpArray)
    (varShape : List Nat) (dt : VarType) :
    numpyForward value varShape dt = .error .unsupportedDtype ↔
      ¬ (promoteNumpy dt = .fp32 ∨ promoteNumpy dt = .int32) := by
  have hchar : numpyForward value varShape dt =
      match numpyValues (promoteNumpy dt) value.data with
      | .error e => .error e
      | .ok vals =>
          if value.data.length > 1024 * 1024 * 1024 then
            Except.error .sizeLimit
          else .ok ⟨value.shape, promoteNumpy dt, vals⟩ := rfl
  rw [hchar]
  cases hv : numpyValues (promoteNumpy dt) value.data with
  | error e =>
    obtain ⟨he, h1, h2⟩ := (numpyValues_error_iff _ _ _).mp hv
    subst he
    simp [h1, h2]
  | ok vals =>
    have h12 : promoteNumpy dt = .fp32 ∨ promoteNumpy dt = .int32 := by
      by_contra hc
      push_neg at hc
      rw [(numpyValues_error_iff _ _ _).mpr ⟨rfl, hc.1, hc.2⟩] at hv
      cases hv
    constructor
    · intro h
      have h2 : (if value.data.length > 1024 * 1024 * 1024 then
            Except.error InitError.sizeLimit
          else Except.ok (⟨value.shape, promoteNumpy dt, vals⟩ :
            AssignValueOp)) = Except.error InitError.unsupportedDtype := h
      split at h2 <;> simp at h2
    · intro h
      exact absurd h12 h

/-- Witness for `claimC5_numpy_dtype_error_iff`: an FP64 target, whose
promoted dtype FP64 is neither FP32 nor INT32, raises the dtype error. -/
theorem claimC5_witness :
    numpyForward ⟨[1], [0]⟩ [1] .fp64 = .error .unsupportedDtype :=
  (claimC5_numpy_dtype_error_iff ⟨[1], [0]⟩ [1] .fp64).mpr (by decide)

/-- C6: `BilinearInitializer.forward` raises a shape error exactly when
the rank differs from 4 or the two spatial dimensions differ; in
particular it fails on `[1, 1, 3, 4]` and on every rank-3 shape. -/
theorem claimC6_bilinear_shape_error_iff (shape : List Nat)
    (dt : VarType) :
    ((bilinearForward shape dt = .error .badRank ∨
        bilinearForward shape dt = .error .badSpatial) ↔
      (shape.length ≠ 4 ∨ shape.getD 2 0 ≠ shape.getD 3 0)) ∧
    bilinearForward [1, 1, 3, 4] dt = .error .badSpatial ∧
    (shape.length = 3 → bilinearForward shape dt = .error .badRank) := by
  refine ⟨⟨?_, ?_⟩, rfl, fun h3 => by simp [bilinearForward, h3]⟩
  · intro hor
    by_contra hc
    push_neg at hc
    obtain ⟨hl, hs⟩ := hc
    simp only [bilinearForward] at hor
    rw [if_neg (not_not_intro hl), if_neg (not_not_intro hs)] at hor
    by_cases h3 : promoteBilinear dt ≠ .fp32
    · rw [if_pos h3] at hor; rcases hor with h | h <;> simp at h
    · rw [if_neg h3] at hor
      by_cases h4 : shape.prod > 1024 * 1024
      · rw [if_pos h4] at hor; rcases hor with h | h <;> simp at h
      · rw [if_neg h4] at hor; rcases hor with h | h <;> simp at h
  · intro hor
    by_cases h1 : shape.length = 4
    · rcases hor with h | h
      · exact absurd h1 h
      · right
        simp only [bilinearForward]
        rw [if_neg (not_not_intro h1), if_pos h]
    · left
      simp only [bilinearForward]
      rw [if_pos h1]

/-- Witness for `claimC6_bilinear_shape_error_iff` at the rank-3 shape
`[2, 2, 2]`. -/
theorem claimC6_witness :
    bilinearForward [2, 2, 2] .fp32 = .error .badRank :=
  (claimC6_bilinear_shape_error_iff [2, 2, 2] .fp32).2.2 rfl

lemma gain_lookup_cons_ne {n k : String} (b : ℝ) (es : List (String × ℝ))
    (h : ¬ n = k) : List.lookup n ((k, b) :: es) = List.lookup n es := by
  rw [List.lookup_cons, show (n == k) = false from by simp [h]]

lemma gain_lookup_none {n : String} (p : ℝ) (h : n ∉ gainNames) :
    (recommended_gain p).lookup n = none := by
  simp [gainNames] at h
  obtain ⟨h1, h2, h3, h4, h5, h6, h7, h8, h9, h10, h11, h12⟩ := h
  unfold recommended_gain
  rw [gain_lookup_cons_ne _ _ h1, gain_lookup_cons_ne _ _ h2,
    gain_lookup_cons_ne _ _ h3, gain_lookup_cons_ne _ _ h4,
    gain_lookup_cons_ne _ _ h5, gain_lookup_cons_ne _ _ h6,
    gain_lookup_cons_ne _ _ h7, gain_lookup_cons_ne _ _ h8,
    gain_lookup_cons_ne _ _ h9, gain_lookup_cons_ne _ _ h10,
    gain_lookup_cons_ne _ _ h11, gain_lookup_cons_ne _ _ h12,
    List.lookup_nil]

lemma gain_lookup_isSome {n : String} (p : ℝ) (h : n ∈ gainNames) :
    ((recommended_gain p).lookup n).isSome = true := by
  fin_cases h <;> simp [recommended_gain, List.lookup]

/-- C7: `calculate_gain` returns the fixed-table value for every known
nonlinearity name — in particular `√2` for `relu`, `1.0` for
`leaky_relu` with `param = 1`, and `√(2 / (1 + 0.01²))` for
`leaky_relu` with the parameter omitted — and raises the
unsupported-nonlinearity error for every name outside the table, such
as `unknown`. -/
theorem claimC7_calculate_gain (name : String) (param : ℝ) :
    calculate_gain "relu" none = .ok (Real.sqrt 2) ∧
    calculate_gain "leaky_relu" (some 1) = .ok 1 ∧
    calculate_gain "leaky_relu" none =
      .ok (Real.sqrt (2 / (1 + (1 / 100) ^ 2))) ∧
    (∃ msg, calculate_gain "unknown" (some param) = .error msg) ∧
    (name ∉ gainNames →
      ∃ msg, calculate_gain name (some param) = .error msg) ∧
    (name ∈ gainNames →
      ∃ g, calculate_gain name (some param) = .ok g) := by
  refine ⟨?_, ?_, ?_, ?_, ?_, ?_⟩
  · simp [calculate_gain, recommended_gain, List.lookup]
  · have h2 : Real.sqrt (2 / (1 + (1 : ℝ) ^ 2)) = 1 := by
      rw [show (2 : ℝ) / (1 + 1 ^ 2) = 1 by norm_num, Real.sqrt_one]
    unfold calculate_gain
    rw [show ((some (1 : ℝ)).getD (1 / 100)) = 1 from rfl]
    rw [show (recommended_gain 1).lookup "leaky_relu" =
        some (Real.sqrt (2 / (1 + (1 : ℝ) ^ 2))) from by
      simp [recommended_gain, List.lookup]]
    rw [h2]
  · simp [calculate_gain, recommended_gain, List.lookup]
  · refine ⟨"nonlinearity function is not supported now.", ?_⟩
    unfold calculate_gain
    rw [gain_lookup_none _ (by decide)]
  · intro h
    refine ⟨"nonlinearity function is not supported now.", ?_⟩
    unfold calculate_gain
    rw [gain_lookup_none _ h]
  · intro h
    obtain ⟨g, hg⟩ := Option.isSome_iff_exists.mp
      (gain_lookup_isSome ((some param).getD (1 / 100)) h)
    refine ⟨g, ?_⟩
    unfold calculate_gain
    rw [hg]

/-- Witness for `claimC7_calculate_gain` at the table name `tanh` and
the unknown name via the concrete parameter 2. -/
theorem claimC7_witness :
    ∃ g, calculate_gain "tanh" (some 2) = .ok g :=
  (claimC7_calculate_gain "tanh" 2).2.2.2.2.2 (by decide)

/-- C8 (spec-modelled): on inputs of the test shape `[2, 3, 4, 5]` drawn
from `[-1, 1]` with step `eps = 0.005`, the Order-2 and Order-3 numeric
checks for elementwise add pass within any nonnegative tolerance — every
central-difference estimate of the synthetic operators is exactly zero,
as is the analytic value. -/
theorem claimC8_add_higher_order_checks (z : List ℚ) (tol : ℚ)
    (hlen : z.length = 2 * elemCount)
    (hrange : ∀ q ∈ z, -1 ≤ q ∧ q ≤ 1) (htol : 0 ≤ tol) :
    gradCheckPasses (addDoubleOp elemCount) (fun _ _ => 0) z (1 / 200) tol
      (2 * elemCount) (2 * elemCount) ∧
    gradCheckPasses (addTripleOp elemCount) (fun _ _ => 0) z (1 / 200) tol
      (2 * elemCount) (2 * elemCount) := by
  constructor
  · intro j _ k _
    have hc : centralDiff (addDoubleOp elemCount) z (1 / 200) j k = 0 := by
      simp [centralDiff, addDoubleOp]
    rw [hc]
    simpa using htol
  · intro j _ k _
    have hc : centralDiff (addTripleOp elemCount) z (1 / 200) j k = 0 := by
      simp [centralDiff, addTripleOp]
    rw [hc]
    simpa using htol

/-- Witness for `claimC8_add_higher_order_checks` at the all-zero input
(inside `[-1, 1]`) and tolerance `1e-2`. -/
theorem claimC8_witness :
    gradCheckPasses (addDoubleOp elemCount) (fun _ _ => 0)
      (List.replicate (2 * elemCount) 0) (1 / 200) (1 / 100)
      (2 * elemCount) (2 * elemCount) :=
  (claimC8_add_higher_order_checks (List.replicate (2 * elemCount) 0)
    (1 / 100) (by simp)
    (fun q hq => by rw [List.eq_of_mem_replicate hq]; norm_num)
    (by norm_num)).1

/-- C9: when `weight_init` passes the type check and `bias_init` fails
it, `set_global_initializer` raises only after the weight global has
already been overwritten with `weight_init`, so the registry is not
left unchanged whenever the new weight differs from the old one. -/
theorem claimC9_nonatomic (w b : InitArg) (s : GlobalRegistry)
    (hw : checkType w = true) (hb : checkType b = false) :
    (set_global_initializer w b s).1 = some .invalidArgument ∧
    (set_global_initializer w b s).2.weight = argToOption w ∧
    (set_global_initializer w b s).2.bias = s.bias ∧
    (argToOption w ≠ s.weight → (set_global_initializer w b s).2 ≠ s) := by
  simp only [set_global_initializer, hw, hb]
  norm_num
  intro hne heq
  exact hne (by rw [← heq])

/-- Witness for `claimC9_nonatomic`: a valid weight initializer and an
invalid bias argument over the empty registry leave a changed
registry. -/
theorem claimC9_witness :
    (set_global_initializer (.inst 7) (.invalid 0) ⟨none, none⟩).2 ≠
      (⟨none, none⟩ : GlobalRegistry) :=
  (claimC9_nonatomic (.inst 7) (.invalid 0) ⟨none, none⟩ rfl rfl).2.2.2
    (by simp [argToOption])

/-- C10: in both `forward` methods the unsupported-dtype check precedes
the size-limit check: an unsupported promoted dtype combined with an
oversized input always raises the dtype error (for the bilinear
initializer the size-limit error cannot surface at all in that case). -/
theorem claimC10_dtype_before_size (dt dtn : VarType) :
    (∀ shape : List Nat, shape.prod > 1024 * 1024 →
        promoteBilinear dt ≠ .fp32 →
        bilinearForward shape dt ≠ .error .sizeLimit ∧
        (shape.length = 4 → shape.getD 2 0 = shape.getD 3 0 →
          bilinearForward shape dt = .error .unsupportedDtype)) ∧
    (∀ (value : NpArray) (varShape : List Nat),
        value.data.length > 1024 * 1024 * 1024 →
        promoteNumpy dtn ≠ .fp32 → promoteNumpy dtn ≠ .int32 →
        numpyForward value varShape dtn = .error .unsupportedDtype) := by
  constructor
  · intro shape _ hdt
    constructor
    · simp only [bilinearForward]
      by_cases h1 : shape.length ≠ 4
      · rw [if_pos h1]; simp
      · rw [if_neg h1]
        by_cases h2 : shape.getD 2 0 ≠ shape.getD 3 0
        · rw [if_pos h2]; simp
        · rw [if_neg h2, if_pos hdt]; simp
    · intro h4 hsp
      simp only [bilinearForward]
      rw [if_neg (not_not_intro h4), if_neg (not_not_intro hsp),
        if_pos hdt]
  · intro value varShape _ h1 h2
    have hv : numpyValues (promoteNumpy dtn) value.data =
        .error .unsupportedDtype :=
      (numpyValues_error_iff _ _ _).mpr ⟨rfl, h1, h2⟩
    have hchar : numpyForward value varShape dtn =
        match numpyValues (promoteNumpy dtn) value.data with
        | .error e => .error e
        | .ok vals =>
            if value.data.length > 1024 * 1024 * 1024 then
              Except.error .sizeLimit
            else .ok ⟨value.shape, promoteNumpy dtn, vals⟩ := rfl
    rw [hchar, hv]

/-- Witness for `claimC10_dtype_before_size`: an INT32 bilinear target
of 2²¹ elements and an FP64 numpy source of 2³⁰ + 1 elements. -/
theorem claimC10_witness :
    bilinearForward [2, 1, 1024, 1024] .int32 = .error .unsupportedDtype ∧
    numpyForward ⟨[1073741825], List.replicate 1073741825 0⟩ [3] .fp64 =
      .error .unsupportedDtype := by
  constructor
  · exact ((claimC10_dtype_before_size .int32 .fp64).1 [2, 1, 1024, 1024]
      (by norm_num [List.prod_cons, List.prod_nil]) (by decide)).2 rfl rfl
  · exact (claimC10_dtype_before_size .int32 .fp64).2
      ⟨[1073741825], List.replicate 1073741825 0⟩ [3]
      (by show (List.replicate 1073741825 (0 : ℚ)).length > 1024 * 1024 * 1024
          rw [List.length_replicate]; norm_num)
      (by decide) (by decide)

end PaddleSpec
